import Mathlib

/-!
Verification development for the lemon-markets Python client
(`src/lemon_markets/__init__.py`).  The Python code is shallowly embedded:
pure control flow becomes Lean functions, the HTTP/WebSocket collaborators
become explicit oracles passed as arguments, exceptions become `Except`
results, and the number of collaborator requests issued is returned
explicitly wherever a property talks about fetch counts.
-/

namespace LemonMarkets

deriving instance DecidableEq for Except

/-- Python exception classes observed on the modelled code paths. -/
inductive PyErr where
  | indexError
  | keyError
  | attributeError
  | valueError
  | assertionError
  | unboundLocalError
deriving DecidableEq, Repr

/-- Python list repetition `l * n` (used by the source as `[] * n`). -/
def pyListMul (l : List α) : Nat → List α
  | 0 => []
  | n + 1 => l ++ pyListMul l n

/-- Python indexed list assignment `l[i] = v`: a negative index counts from
the end, and an index out of range raises IndexError. -/
def listAssign (l : List α) (i : Int) (v : α) : Except PyErr (List α) :=
  let n : Int := l.length
  let j : Int := if i < 0 then i + n else i
  if 0 ≤ j ∧ j < n then .ok (l.set j.toNat v) else .error .indexError

/-- Python substring containment `needle in hay` on strings (used by the
source as, e.g., the test that the order type contains "limit"). -/
def strContains (hay needle : String) : Bool :=
  (List.range (hay.length + 1)).any fun i =>
    ((hay.toList.drop i).take needle.toList.length) == needle.toList

/-! ## WebSocket worker (`WebSocket._ws_worker`, lines 74-96)

The worker is driven by what `ws.recv()` produces.  Each receive either
yields a well-formed trade message (together with the wall-clock value the
two `time()` calls return while it is handled, and whether evaluating
`self.callback(Instrument(...), Trade(...))` raises) or fails (timeout,
server disconnect, parse failure).  A receive failure, and also the
ValueError the worker itself raises when the callback raises, is caught by
the `except Exception: break` around the receive loop: the connection is
closed and the outer `while True` opens a new one, resending one subscribe
directive per registered isin.  `self._last_message_time` starts at 0 and
is updated only after a dispatch that did not raise. -/

/-- One `ws.recv()` outcome as observed by the worker. -/
inductive RecvEvent where
  | msg (isin : String) (price : Int) (date : Int) (t : Int) (cbRaises : Bool)
  | err
deriving DecidableEq, Repr

/-- Observable worker actions: opening connection number `conn` (which
resends the subscribe directives), and attempting a dispatch on connection
`conn` (`raised` records whether the callback raised). -/
inductive WorkerAction where
  | connect (conn : Nat) (subs : List String)
  | invoke (conn : Nat) (isin : String) (price : Int) (date : Int) (t : Int) (raised : Bool)
deriving DecidableEq, Repr

/-- The connection an action happens on. -/
def WorkerAction.connOf : WorkerAction → Nat
  | .connect c _ => c
  | .invoke c _ _ _ _ _ => c

/-- The receive loop of `_ws_worker`, from the state
(`_last_message_time` = `last`, current connection number = `conn`),
processing the given finite prefix of receive outcomes.  `registry` is the
list of subscribed isins (read on each reconnect). -/
def runEvents (F : Int) (registry : List String) :
    Int → Nat → List RecvEvent → List WorkerAction
  | _, _, [] => []
  | last, conn, .err :: rest =>
      .connect (conn + 1) registry :: runEvents F registry last (conn + 1) rest
  | last, conn, .msg isin p d t cb :: rest =>
      if F < t - last then
        if cb then
          .invoke conn isin p d t true ::
            .connect (conn + 1) registry :: runEvents F registry last (conn + 1) rest
        else
          .invoke conn isin p d t false :: runEvents F registry t conn rest
      else
        runEvents F registry last conn rest

/-- A whole worker run: the first connection is opened (sending the
subscribe directives), then the receive loop runs with
`_last_message_time = 0`. -/
def wsWorkerRun (F : Int) (registry : List String) (events : List RecvEvent) :
    List WorkerAction :=
  .connect 0 registry :: runEvents F registry 0 0 events

/-- Connection numbers of the dispatch attempts of a run, in order. -/
def invokeConns (l : List WorkerAction) : List Nat :=
  l.filterMap fun a =>
    match a with
    | .invoke c _ _ _ _ _ => some c
    | _ => none

/-- Times of the dispatch attempts of a run, in order. -/
def invokeTimes (l : List WorkerAction) : List Int :=
  l.filterMap fun a =>
    match a with
    | .invoke _ _ _ _ t _ => some t
    | _ => none

/-- A well-formed message on which the callback does not raise. -/
structure CleanMsg where
  isin : String
  price : Int
  date : Int
  t : Int
deriving DecidableEq, Repr

/-- Embeds a list of clean messages as receive events. -/
def cleanEvents (ms : List CleanMsg) : List RecvEvent :=
  ms.map fun m => .msg m.isin m.price m.date m.t false

/-- The throttle of the receive loop on the message times alone
(`time() - self._last_message_time > self._frequency_limit`, with the
state updated to the time of each dispatched message). -/
def dispatchedTimes (F : Int) : Int → List Int → List Int
  | _, [] => []
  | last, t :: ts =>
      if F < t - last then t :: dispatchedTimes F t ts
      else dispatchedTimes F last ts

/-! ## Subscription registry (`WebSocket.subscribe` / `unsubscribe`)

The source class defines no `__eq__` on Instrument, so the membership test
`instrument in self.subscribed` and `self.subscribed.remove(instrument)`
compare by Python object identity.  Instruments are therefore modelled as
an object id together with the isin field. -/

/-- An Instrument as seen by the registry: object identity plus isin. -/
structure PInstrument where
  oid : Nat
  isin : String
deriving DecidableEq, Repr

/-- Python `x in l` for Instrument values (identity comparison). -/
def pyMem (x : PInstrument) (l : List PInstrument) : Bool :=
  l.any fun y => y.oid == x.oid

/-- Python `l.remove(x)` for Instrument values: drops the first
identity-equal element; the source swallows the ValueError raised when
none matches, so the result is just the (possibly unchanged) list. -/
def pyRemove : List PInstrument → PInstrument → List PInstrument
  | [], _ => []
  | y :: ys, x => if y.oid == x.oid then ys else y :: pyRemove ys x

/-- WebSocket state relevant to `subscribe`: the registry and how many
times `Process(...).start()` has been executed. -/
structure WSObj where
  subscribed : List PInstrument
  workerStarts : Nat
deriving DecidableEq, Repr

/-- `WebSocket.subscribe` (lines 98-123, with the global debug flag off):
return early when the instrument is already present (by identity),
otherwise append it, and start the worker process exactly when the
registry length just became 1. -/
def WSObj.subscribe (s : WSObj) (inst : PInstrument) : WSObj :=
  if pyMem inst s.subscribed then s
  else
    let subs := s.subscribed ++ [inst]
    { subscribed := subs
      workerStarts := if subs.length == 1 then s.workerStarts + 1 else s.workerStarts }

/-- WebSocket state relevant to `unsubscribe`: the registry and whether
the `_ws_process` attribute exists (it is first set by `subscribe`). -/
structure WSFull where
  subscribed : List PInstrument
  hasWorker : Bool
deriving DecidableEq, Repr

/-- `WebSocket.unsubscribe` (lines 125-147).  The removal (with its
swallowed ValueError) always happens first.  `debug_str` is assigned only
under `if debug:`; when the registry is empty after removal the worker is
terminated via `self._ws_process`, which raises AttributeError if no
worker was ever started.  The final `print` statement is unconditional
and reads `debug_str`, so with `debug` False every surviving path raises
UnboundLocalError.  Returns the state after the mutation together with
the outcome (`true` = terminate was called). -/
def WSFull.unsubscribe (dbg : Bool) (s : WSFull) (inst : PInstrument) :
    WSFull × Except PyErr Bool :=
  let subs := pyRemove s.subscribed inst
  let s2 : WSFull := ⟨subs, s.hasWorker⟩
  if subs.length == 0 then
    if s.hasWorker then
      (s2, if dbg then .ok true else .error .unboundLocalError)
    else (s2, .error .attributeError)
  else
    (s2, if dbg then .ok false else .error .unboundLocalError)

/-! ## Lazy hydration entities

Attribute reads are modelled as total functions returning the outcome of
the read together with the number of `_request` calls it issued; object
constructors likewise return the number of `_request` calls issued by
`__init__`.  A Python value held in an instance `__dict__` is a `PyVal`
(`vNone` is the Python value None; an *absent* dict entry is `Option.none`
at the outer level). -/

/-- The payload of the instrument detail endpoint. -/
structure InstrumentData where
  wkn : String
  title : String
  type : String
  symbol : String
deriving DecidableEq, Repr

/-- An Instrument object: the isin plus the four descriptive fields, which
the source only ever writes all together (both in `__init__` and in
`__getattr__`), so the cache is either empty or full. -/
structure InstrumentObj where
  isin : String
  fields : Option InstrumentData
deriving DecidableEq, Repr

/-- `Instrument.__init__` (lines 682-697): stores the isin, and stores the
four descriptive fields only when all of them were passed.  No `_request`
is issued (count 0). -/
def Instrument.init (isin : String) (wkn title ty symbol : Option String) :
    InstrumentObj × Nat :=
  (match wkn, title, ty, symbol with
    | some w, some ti, some ty2, some sy => ⟨isin, some ⟨w, ti, ty2, sy⟩⟩
    | _, _, _, _ => ⟨isin, none⟩, 0)

/-- Lookup of a descriptive field by name in the hydrated data. -/
def InstrumentData.field (d : InstrumentData) (n : String) : Option String :=
  if n = "wkn" then some d.wkn
  else if n = "title" then some d.title
  else if n = "type" then some d.type
  else if n = "symbol" then some d.symbol
  else none

/-- Reading attribute `n` on an Instrument, given the instrument detail
endpoint as oracle.  A `__dict__` hit costs nothing; a miss goes through
`__getattr__` (lines 699-712): names outside the four descriptive fields
raise AttributeError, otherwise one GET populates all four fields and the
requested one is returned. -/
def Instrument.read (oracle : InstrumentData) (o : InstrumentObj) (n : String) :
    Except PyErr (InstrumentObj × String) × Nat :=
  if n = "isin" then (.ok (o, o.isin), 0)
  else
    match o.fields with
    | some d =>
        match d.field n with
        | some v => (.ok (o, v), 0)
        | none => (.error .attributeError, 0)
    | none =>
        if n = "wkn" ∨ n = "title" ∨ n = "type" ∨ n = "symbol" then
          match oracle.field n with
          | some v => (.ok (⟨o.isin, some oracle⟩, v), 1)
          | none => (.error .keyError, 1)
        else (.error .attributeError, 0)

/-- The payload of the account detail endpoint. -/
structure AccountData where
  name : String
  type : String
  currency : String
deriving DecidableEq, Repr

/-- An Account object after `__init__`: uuid, token and the three
descriptive fields (which `__init__` always fills). -/
structure AccountObj where
  uuid : String
  token : String
  name : String
  type : String
  currency : String
deriving DecidableEq, Repr

/-- `Account.__init__` (lines 172-184): stores uuid, token and the auth
header, then unconditionally issues one GET for the account data and
stores name, type and currency.  The fetch count is therefore 1. -/
def Account.init (oracle : AccountData) (uuid token : String) : AccountObj × Nat :=
  (⟨uuid, token, oracle.name, oracle.type, oracle.currency⟩, 1)

/-- Reading attribute `n` on an Account.  The instance `__dict__` always
holds uuid, token, name, type and currency after `__init__`, so reads of
those cost nothing; any other name reaches `__getattr__` (lines 204-217),
whose guard raises AttributeError for every name outside name, type and
currency — and those three can never be missing, so the refetch branch of
`__getattr__` is unreachable. -/
def Account.read (a : AccountObj) (n : String) : Except PyErr String × Nat :=
  if n = "uuid" then (.ok a.uuid, 0)
  else if n = "token" then (.ok a.token, 0)
  else if n = "name" then (.ok a.name, 0)
  else if n = "type" then (.ok a.type, 0)
  else if n = "currency" then (.ok a.currency, 0)
  else (.error .attributeError, 0)

/-- A Python value stored in an entity `__dict__`. -/
inductive PyVal where
  | vInt (i : Int)
  | vStr (s : String)
  | vNone
  | vInstr (o : InstrumentObj)
  | vAccount (a : AccountObj)
deriving DecidableEq, Repr

/-- The payload of the order detail endpoint. -/
structure OrderInfo where
  quantity : Int
  type : String
  limit_price : Int
  stop_price : Int
  side : String
  status : String
  instrument_isin : String
  created_at : Int
  processed_at : Int
  processed_quantity : Int
  average_price : Int
  valid_until : Int
deriving DecidableEq, Repr

/-- The lazily filled part of an Order `__dict__` (entry absent =
`Option.none`). -/
structure OrderDict where
  quantity : Option PyVal
  limit_price : Option PyVal
  stop_price : Option PyVal
  type : Option PyVal
  side : Option PyVal
  status : Option PyVal
  instrument : Option PyVal
  created_at : Option PyVal
  processed_at : Option PyVal
  processed_quantity : Option PyVal
  avg_price : Option PyVal
  valid_until : Option PyVal
deriving DecidableEq, Repr

/-- The empty Order dict (lazy construction). -/
def OrderDict.empty : OrderDict :=
  ⟨none, none, none, none, none, none, none, none, none, none, none, none⟩

/-- Dict lookup by attribute name. -/
def OrderDict.lookup (f : OrderDict) (n : String) : Option PyVal :=
  if n = "quantity" then f.quantity
  else if n = "limit_price" then f.limit_price
  else if n = "stop_price" then f.stop_price
  else if n = "type" then f.type
  else if n = "side" then f.side
  else if n = "status" then f.status
  else if n = "instrument" then f.instrument
  else if n = "created_at" then f.created_at
  else if n = "processed_at" then f.processed_at
  else if n = "processed_quantity" then f.processed_quantity
  else if n = "avg_price" then f.avg_price
  else if n = "valid_until" then f.valid_until
  else none

/-- The names accepted by `Order.__getattr__` (lines 913-914); note that
status is populated by hydration but not in this list. -/
def orderAttrNames : List String :=
  ["quantity", "limit_price", "stop_price", "type", "side", "instrument",
   "created_at", "processed_at", "processed_quantity", "avg_price", "valid_until"]

/-- The assignment sequence of `Order.__getattr__` after its one GET
(lines 921-935).  Line 923 is the chained assignment
`self.__dict__[...limit_price...] = orderinfo[...stop_price...] = None`:
it writes None into the dict entry limit_price AND overwrites the local
response entry stop_price with None before the `elif` branch reads it.
The dict entry stop_price is written only in the `elif` branch (types
containing "stop" but not "limit"), and then always with that clobbered
None. -/
def Order.hydrate (info : OrderInfo) (f : OrderDict) : OrderDict :=
  let f1 := { f with
    quantity := some (.vInt info.quantity)
    type := some (.vStr info.type)
    limit_price := some .vNone }
  let f2 :=
    if strContains info.type "limit" then
      { f1 with limit_price := some (.vInt info.limit_price) }
    else if strContains info.type "stop" then
      { f1 with stop_price := some .vNone }
    else f1
  { f2 with
    side := some (.vStr info.side)
    status := some (.vStr info.status)
    instrument := some (.vInstr (Instrument.init info.instrument_isin none none none none).1)
    created_at := some (.vInt info.created_at)
    processed_at := some (.vInt info.processed_at)
    processed_quantity := some (.vInt info.processed_quantity)
    avg_price := some (.vInt info.average_price)
    valid_until := some (.vInt info.valid_until) }

/-- An Order object: identity (id, owning account) plus the lazy dict. -/
structure OrderObj where
  id : String
  account : AccountObj
  dict : OrderDict
deriving DecidableEq, Repr

/-- `Order.__init__` on the lazy path (id and account only, lines
875-893): no `_request` is issued. -/
def Order.init (id : String) (account : AccountObj) : OrderObj × Nat :=
  (⟨id, account, OrderDict.empty⟩, 0)

/-- Reading attribute `n` on an Order, given the order detail endpoint as
oracle.  A dict hit costs nothing; a miss goes through `__getattr__`
(lines 910-937): unknown names raise AttributeError, otherwise one GET
runs the hydration assignments and `return self.__dict__[name]` raises
KeyError when the requested entry is still absent (which happens for
stop_price whenever the type does not land in the `elif` branch). -/
def Order.read (info : OrderInfo) (o : OrderObj) (n : String) :
    Except PyErr (OrderObj × PyVal) × Nat :=
  if n = "id" then (.ok (o, .vStr o.id), 0)
  else if n = "account" then (.ok (o, .vAccount o.account), 0)
  else
    match o.dict.lookup n with
    | some v => (.ok (o, v), 0)
    | none =>
        if n ∈ orderAttrNames then
          let d2 := Order.hydrate info o.dict
          match d2.lookup n with
          | some v => (.ok (⟨o.id, o.account, d2⟩, v), 1)
          | none => (.error .keyError, 1)
        else (.error .attributeError, 0)

/-- The lazily filled part of a Transaction `__dict__`. -/
structure TransDict where
  name : Option PyVal
  amount : Option PyVal
  order_volume : Option PyVal
  instrument : Option PyVal
  time : Option PyVal
deriving DecidableEq, Repr

/-- The names accepted by `Transaction.__getattr__` (line 784); note that
order_isin is accepted but never populated, and instrument is populated
but not accepted. -/
def transAttrNames : List String :=
  ["name", "amount", "order_volume", "order_isin", "time"]

/-- A Transaction object: identity (id, owning account) plus the lazy
dict. -/
structure TransactionObj where
  id : String
  account : AccountObj
  dict : TransDict
deriving DecidableEq, Repr

/-- `Transaction.__init__` (lines 760-779): stores id and account, and the
five value fields only when all of them were passed.  No `_request` is
issued. -/
def Transaction.init (id : String) (account : AccountObj)
    (name : Option String) (amount : Option Int) (order_volume : Option Int)
    (instrument : Option InstrumentObj) (time : Option Int) : TransactionObj × Nat :=
  (match name, amount, order_volume, instrument, time with
    | some nm, some am, some ov, some io2, some tm =>
        ⟨id, account,
          ⟨some (.vStr nm), some (.vInt am), some (.vInt ov),
           some (.vInstr io2), some (.vInt tm)⟩⟩
    | _, _, _, _, _ => ⟨id, account, ⟨none, none, none, none, none⟩⟩, 0)

/-- Dict lookup by attribute name. -/
def TransDict.lookup (f : TransDict) (n : String) : Option PyVal :=
  if n = "name" then f.name
  else if n = "amount" then f.amount
  else if n = "order_volume" then f.order_volume
  else if n = "instrument" then f.instrument
  else if n = "time" then f.time
  else none

/-- Reading attribute `n` on a Transaction.  A dict hit costs nothing; a
miss goes through `__getattr__` (lines 781-796): unknown names raise
AttributeError, and for accepted names the URL f-string evaluates
`self.account.isin` — an attribute Account does not have — so the read
raises AttributeError before any `_request` is issued. -/
def Transaction.read (t : TransactionObj) (n : String) :
    Except PyErr (TransactionObj × PyVal) × Nat :=
  if n = "id" then (.ok (t, .vStr t.id), 0)
  else if n = "account" then (.ok (t, .vAccount t.account), 0)
  else
    match t.dict.lookup n with
    | some v => (.ok (t, v), 0)
    | none =>
        if n ∈ transAttrNames then
          match (Account.read t.account "isin").1 with
          | .ok _ => (.error .keyError, 1)
          | .error e => (.error e, 0)
        else (.error .attributeError, 0)

/-- The order types accepted by `Account.create_order` (line 256). -/
def orderTypes : List String := ["limit", "stop_limit", "market", "stop_market"]

/-- `Account.create_order` (lines 223-279), given the uuid the POST
response carries.  After validation the POST is issued (second component
counts issued requests); the return statement then builds
`Order(r_order[...], self.account, self.token)`, and evaluating
`self.account` raises AttributeError, so no Order is ever returned.
`valid_until` is defaulted to `time()` when None and hence never fails
the None check. -/
def Account.create_order (a : AccountObj) (_respUuid : String)
    (side : Option String) (instrument : Option InstrumentObj)
    (quantity : Option Int) (order_type : Option String)
    (limit_price stop_price : Option Int) : Except PyErr OrderObj × Nat :=
  match side, instrument, quantity, order_type with
  | some _, some _, some _, some ot =>
      if ot ∈ orderTypes then
        if limit_price = none ∧ strContains ot "limit" = true then
          (.error .assertionError, 0)
        else if stop_price = none ∧ strContains ot "stop" = true then
          (.error .assertionError, 0)
        else
          match (Account.read a "account").1 with
          | .error e => (.error e, 1)
          | .ok _ => (.error .keyError, 1)
      else (.error .assertionError, 0)
  | _, _, _, _ => (.error .assertionError, 0)

/-! ## List-returning query operations

Each operation receives the provider responses as an oracle: a single
response for the single-request operations, and a function from request
index to page for the paginated ones.  Paginated operations also return
the list of requests they issued, as (page limit, page offset) pairs. -/

/-- One provider result page.  The `next` field of the parsed JSON is None
for a genuine JSON null; the source compares it against the STRING
"null". -/
structure Page (α : Type) where
  results : List α
  next : Option String
deriving DecidableEq, Repr

/-- The page-size loop shared by `list_instruments` (lines 506-513),
`get_m1_candlesticks` (lines 562-569) and `get_seperated` (lines
1039-1046): while limit is positive, emit P and subtract when limit ≥ P,
else emit the remainder and stop.  Modelled with an explicit iteration
bound so that the kernel can evaluate it. -/
def pageListGo (P : Nat) : Nat → Nat → List Nat
  | _, 0 => []
  | limit, fuel + 1 =>
      if limit = 0 then []
      else if P ≤ limit then P :: pageListGo P (limit - P) fuel
      else [limit]

/-- The page-size loop entry point.  `limit` iterations always suffice
because every iteration strictly decreases the remaining limit (P is the
literal 1000 or 200 in the source, never 0), so the explicit iteration
bound of `pageListGo` never fires. -/
def pageList (P : Nat) (limit : Nat) : List Nat :=
  pageListGo P limit limit

/-- The request loop shared by `list_instruments` (lines 516-528) and
`get_m1_candlesticks` (lines 572-585): one request per page size, at
offset `i * stride + offset`, concatenating results in arrival order and
breaking after the first page whose `next` field equals the string
"null".  Returns the issued (limit, offset) pairs and the concatenated
results. -/
def collectPages (pages : Nat → Page α) (stride offset : Nat) :
    Nat → List Nat → List (Nat × Nat) × List α
  | _, [] => ([], [])
  | i, item :: rest =>
      let pg := pages i
      let req := (item, i * stride + offset)
      if pg.next == some "null" then ([req], pg.results)
      else
        let r := collectPages pages stride offset (i + 1) rest
        (req :: r.1, pg.results ++ r.2)

/-- The result-filling loop shared by every list-returning operation:
`for i, result in enumerate(src): returnlist[ix(i)] = f(result)`, where
the right-hand side is evaluated before the indexed assignment. -/
def fillLoop (f : α → Except PyErr β) (ixOf : Nat → Int) :
    List β → Nat → List α → Except PyErr (List β)
  | acc, _, [] => .ok acc
  | acc, i, r :: rest =>
      match f r with
      | .error e => .error e
      | .ok v =>
          match listAssign acc (ixOf i) v with
          | .error e => .error e
          | .ok acc2 => fillLoop f ixOf acc2 (i + 1) rest

/-- One raw instrument result. -/
structure InstrRaw where
  isin : String
  wkn : String
  title : String
  type : String
  symbol : String
deriving DecidableEq, Repr

/-- `REST.list_instruments` (lines 487-536): paginate with P = 1000 and
stride 1000, then fill `returnlist = [] * len(...)` by index — raising
IndexError whenever there is at least one result — and finally
`return instrument_list` (the RAW results, not returnlist). -/
def REST.list_instruments (pages : Nat → Page InstrRaw) (limit offset : Nat) :
    List (Nat × Nat) × Except PyErr (List InstrRaw) :=
  let c := collectPages pages 1000 offset 0 (pageList 1000 limit)
  let fill := fillLoop
    (fun r => .ok (Instrument.init r.isin (some r.wkn) (some r.title)
      (some r.type) (some r.symbol)).1)
    (fun i => (i : Int)) (pyListMul [] c.2.length) 0 c.2
  match fill with
  | .error e => (c.1, .error e)
  | .ok _ => (c.1, .ok c.2)

/-- One raw candle result. -/
structure CandleRaw where
  copen : Int
  chigh : Int
  clow : Int
  cclose : Int
  date : Int
deriving DecidableEq, Repr

/-- A Candle object (fields open/high/low/close/width/time of the source
class, with c-prefixed names since open is a Lean keyword). -/
structure CandleObj where
  copen : Int
  chigh : Int
  clow : Int
  cclose : Int
  width : Int
  time : Int
deriving DecidableEq, Repr

/-- `REST.get_m1_candlesticks` (lines 538-593): assert the ordering
parameter, paginate with P = 1000 and stride 1000, then fill
`returnlist = [] * len(...)` — at index `-i` when ordering is "-date",
at index `i` otherwise. -/
def REST.get_m1_candlesticks (pages : Nat → Page CandleRaw)
    (ordering : Option String) (limit offset : Nat) :
    List (Nat × Nat) × Except PyErr (List CandleObj) :=
  if ordering = none ∨ ordering = some "date" ∨ ordering = some "-date" then
    let c := collectPages pages 1000 offset 0 (pageList 1000 limit)
    let mk : CandleRaw → Except PyErr CandleObj :=
      fun r => .ok ⟨r.copen, r.chigh, r.clow, r.cclose, 60, r.date⟩
    let ix : Nat → Int :=
      if ordering = some "-date" then fun i => -(i : Int) else fun i => (i : Int)
    (c.1, fillLoop mk ix (pyListMul [] c.2.length) 0 c.2)
  else ([], .error .assertionError)

/-- One raw order listing result. -/
structure OrderRaw where
  uuid : String
  quantity : Int
  limit_price : Option Int
  stop_price : Option Int
  type : String
  side : String
  instrument_isin : String
  created_at : Int
  processed_at : Int
  processed_quantity : Int
  average_price : Int
  valid_until : Int
deriving DecidableEq, Repr

/-- The order listing response: the reported count (used for `[] * count`)
and the results. -/
structure OrdersResp where
  count : Nat
  results : List OrderRaw
deriving DecidableEq, Repr

/-- `Account.list_orders` (lines 310-369): one GET, then fill
`returnlist = [] * count` by index.  Each iteration first builds
`Order(result[...], self.account, self.token, ...)`, and evaluating the
argument `self.account` raises AttributeError (Account has no such
attribute), before the indexed assignment is reached. -/
def Account.list_orders (a : AccountObj) (resp : OrdersResp) :
    Except PyErr (List OrderObj) :=
  fillLoop
    (fun _ =>
      match (Account.read a "account").1 with
      | .error e => .error e
      | .ok _ => .error .keyError)
    (fun i => (i : Int)) (pyListMul [] resp.count) 0 resp.results

/-- One raw transaction listing result. -/
structure TransRaw where
  uuid : String
  name : String
  amount : Int
  related_volume : Int
  related_instrument : String
  time : Int
deriving DecidableEq, Repr

/-- `Account.list_transactions` (lines 371-408): one GET, then fill
`returnlist = [] * len(results)` by index with fully-constructed
Transaction objects. -/
def Account.list_transactions (a : AccountObj) (results : List TransRaw) :
    Except PyErr (List TransactionObj) :=
  fillLoop
    (fun r => .ok (Transaction.init r.uuid a (some r.name) (some r.amount)
      (some r.related_volume)
      (some (Instrument.init r.related_instrument none none none none).1)
      (some r.time)).1)
    (fun i => (i : Int)) (pyListMul [] results.length) 0 results

/-- One raw tick result. -/
structure TradeRaw where
  price : Int
  date : Int
deriving DecidableEq, Repr

/-- A Trade object. -/
structure TradeObj where
  price : Int
  time : Int
deriving DecidableEq, Repr

/-- `Account.get_trades_intraday` (lines 419-457): assert the ordering
parameter, one GET, then fill `returnlist = [] * len(results)` by
index. -/
def Account.get_trades_intraday (order : Option String)
    (results : List TradeRaw) : Except PyErr (List TradeObj) :=
  if order = none ∨ order = some "date" ∨ order = some "-date" then
    fillLoop (fun r => .ok ⟨r.price, r.date⟩)
      (fun i => (i : Int)) (pyListMul [] results.length) 0 results
  else .error .assertionError

/-- One raw portfolio position result. -/
structure PosRaw where
  quantity : Int
  average_price : Int
  instrument_isin : String
  uuid : String
deriving DecidableEq, Repr

/-- A Position object. -/
structure PositionObj where
  quantity : Int
  avg_price : Int
  instrument : InstrumentObj
  id : String
deriving DecidableEq, Repr

/-- A Portfolio object: its instance dict holds only the account
(`Portfolio.__init__`, lines 1005-1009). -/
structure PortfolioObj where
  account : AccountObj
deriving DecidableEq, Repr

/-- Attribute lookup on a Portfolio: only account is present, and the
class defines no `__getattr__`, so everything else raises
AttributeError. -/
def PortfolioObj.read (_p : PortfolioObj) (n : String) : Except PyErr Unit :=
  if n = "account" then .ok () else .error .attributeError

/-- Builds a Position from a raw result (shared by the portfolio
queries). -/
def mkPosition (r : PosRaw) : PositionObj :=
  ⟨r.quantity, r.average_price,
    (Instrument.init r.instrument_isin none none none none).1, r.uuid⟩

/-- `Portfolio.get_aggregated` (lines 1011-1026): one GET (via
`self.account._auth_header`, which exists), then fill
`returnpositions = [] * len(...)` by index. -/
def PortfolioObj.get_aggregated (resp : List PosRaw) :
    Except PyErr (List PositionObj) :=
  fillLoop (fun r => .ok (mkPosition r))
    (fun i => (i : Int)) (pyListMul [] resp.length) 0 resp

/-- The request loop of `get_seperated` (lines 1048-1060).  Each
iteration evaluates the request arguments: the URL f-string reads
`self.account.uuid` (fine), then `headers=self._auth_header` reads an
attribute Portfolio does not have, raising AttributeError before the
request is issued.  The page offset expression in the source is
`i * 1000 + offset` even though the page size P is 200. -/
def sepLoop (p : PortfolioObj) (pages : Nat → Page PosRaw) (offset : Nat) :
    Nat → List Nat → List (Nat × Nat) × Except PyErr (List PosRaw)
  | _, [] => ([], .ok [])
  | i, item :: rest =>
      match p.read "_auth_header" with
      | .error e => ([], .error e)
      | .ok _ =>
          let pg := pages i
          let req := (item, i * 1000 + offset)
          if pg.next == some "null" then ([req], .ok pg.results)
          else
            match sepLoop p pages offset (i + 1) rest with
            | (rs, .error e) => (req :: rs, .error e)
            | (rs, .ok more) => (req :: rs, .ok (pg.results ++ more))

/-- `Portfolio.get_seperated` (lines 1028-1067): page sizes from P = 200,
then the request loop, then fill `returnpositions = [] * len(...)` by
index. -/
def PortfolioObj.get_seperated (p : PortfolioObj) (pages : Nat → Page PosRaw)
    (limit offset : Nat) : List (Nat × Nat) × Except PyErr (List PositionObj) :=
  match sepLoop p pages offset 0 (pageList 200 limit) with
  | (reqs, .error e) => (reqs, .error e)
  | (reqs, .ok plist) =>
      (reqs, fillLoop (fun r => .ok (mkPosition r))
        (fun i => (i : Int)) (pyListMul [] plist.length) 0 plist)

/-! ## Concrete fixtures used by closed theorems -/

/-- A concrete Account object. -/
def acctA : AccountObj := (Account.init ⟨"Main", "demo", "EUR"⟩ "acct-uuid-1" "tok1").1

/-- A concrete lazily constructed Instrument. -/
def instA : InstrumentObj := (Instrument.init "US0378331005" none none none none).1

/-- A registry Instrument object. -/
def instOb1 : PInstrument := ⟨1, "US0378331005"⟩

/-- A second, distinct registry Instrument object with the same isin. -/
def instOb2 : PInstrument := ⟨2, "US0378331005"⟩

/-- A concrete order detail payload of type market. -/
def infoM : OrderInfo := ⟨5, "market", 0, 7, "buy", "open", "US0378331005", 1, 2, 3, 4, 9⟩

/-- A concrete raw order listing result. -/
def ordRaw1 : OrderRaw := ⟨"o1", 1, none, none, "market", "buy", "US0378331005", 0, 0, 0, 0, 0⟩

/-- A concrete raw transaction listing result. -/
def transRaw1 : TransRaw := ⟨"t1", "fee", 5, 100, "US0378331005", 0⟩

/-- A concrete raw instrument listing result. -/
def instrRaw1 : InstrRaw := ⟨"US0378331005", "w1", "Apple", "stocks", "AAPL"⟩

/-- A candle page oracle: every page holds one candle and signals the
string "null" as its next page. -/
def candlePages1 : Nat → Page CandleRaw := fun _ => ⟨[⟨1, 2, 0, 1, 100⟩], some "null"⟩

/-- An instrument page oracle with no end-of-pages marker. -/
def instrPages1 : Nat → Page InstrRaw := fun _ => ⟨[instrRaw1], none⟩

/-- A position page oracle returning no results. -/
def posPages0 : Nat → Page PosRaw := fun _ => ⟨[], none⟩

/-- A concrete Portfolio object. -/
def portA : PortfolioObj := ⟨acctA⟩

/-! ## Helper lemmas -/

theorem pyListMul_nil (n : Nat) : pyListMul ([] : List α) n = [] := by
  induction n with
  | zero => rfl
  | succ n ih => simpa [pyListMul] using ih

theorem listAssign_nil (i : Int) (v : α) :
    listAssign ([] : List α) i v = .error .indexError := by
  unfold listAssign
  by_cases hi : i < 0 <;> simp [hi]

theorem fillLoop_head_err (f : α → Except PyErr β) (ixOf : Nat → Int)
    (acc : List β) (i : Nat) (r : α) (rest : List α) (e : PyErr)
    (hf : f r = .error e) :
    fillLoop f ixOf acc i (r :: rest) = .error e := by
  simp [fillLoop, hf]

theorem fillLoop_head_ok_nil (f : α → Except PyErr β) (ixOf : Nat → Int)
    (i : Nat) (r : α) (rest : List α) (v : β) (hf : f r = .ok v) :
    fillLoop f ixOf [] i (r :: rest) = .error .indexError := by
  simp [fillLoop, hf, listAssign_nil]

theorem fillLoop_allok_ne_nil (g : α → β) (ixOf : Nat → Int) (i : Nat)
    (src : List α) (h : src ≠ []) :
    fillLoop (fun r => .ok (g r)) ixOf [] i src = .error .indexError := by
  cases src with
  | nil => exact absurd rfl h
  | cons r rest => exact fillLoop_head_ok_nil _ _ _ _ _ _ rfl

theorem fillLoop_allok_ok (g : α → β) (ixOf : Nat → Int) (i : Nat)
    (src : List α) (l : List β)
    (h : fillLoop (fun r => .ok (g r)) ixOf [] i src = .ok l) :
    src = [] ∧ l = [] := by
  cases src with
  | nil => exact ⟨rfl, by simpa [fillLoop] using h.symm⟩
  | cons r rest =>
      rw [fillLoop_head_ok_nil (fun r => .ok (g r)) ixOf i r rest (g r) rfl] at h
      cases h

theorem runEvents_conn_le (F : Int) (reg : List String) :
    ∀ (es : List RecvEvent) (last : Int) (conn : Nat) (a : WorkerAction),
      a ∈ runEvents F reg last conn es → conn ≤ a.connOf := by
  intro es
  induction es with
  | nil => intro last conn a h; simp [runEvents] at h
  | cons e rest ih =>
      intro last conn a h
      cases e with
      | err =>
          simp only [runEvents, List.mem_cons] at h
          rcases h with h | h
          · subst h; exact Nat.le_succ conn
          · exact Nat.le_trans (Nat.le_succ conn) (ih _ _ _ h)
      | msg isin p d t cb =>
          by_cases hd : F < t - last
          · cases cb with
            | true =>
                simp only [runEvents, if_pos hd, if_true, List.mem_cons] at h
                rcases h with rfl | rfl | h
                · exact Nat.le_refl conn
                · exact Nat.le_succ conn
                · exact Nat.le_trans (Nat.le_succ conn) (ih _ _ _ h)
            | false =>
                simp only [runEvents, if_pos hd, Bool.false_eq_true, if_false,
                  List.mem_cons] at h
                rcases h with rfl | h
                · exact Nat.le_refl conn
                · exact ih _ _ _ h
          · simp only [runEvents, if_neg hd] at h
            exact ih _ _ _ h

theorem pageListGo_congr (P : Nat) (hP : 0 < P) :
    ∀ (f1 : Nat) (limit f2 : Nat), limit ≤ f1 → limit ≤ f2 →
      pageListGo P limit f1 = pageListGo P limit f2 := by
  intro f1
  induction f1 with
  | zero =>
      intro limit f2 h1 _
      interval_cases limit
      cases f2 <;> simp [pageListGo]
  | succ f ih =>
      intro limit f2 h1 h2
      cases f2 with
      | zero =>
          interval_cases limit
          simp [pageListGo]
      | succ f2 =>
          by_cases hl : limit = 0
          · simp [pageListGo, hl]
          · by_cases hPl : P ≤ limit
            · simp only [pageListGo, if_neg hl, if_pos hPl]
              rw [ih (limit - P) f2 (by omega) (by omega)]
            · simp [pageListGo, hl, hPl]

theorem pageList_unfold (P : Nat) (hP : 0 < P) (limit : Nat) :
    pageList P limit =
      if limit = 0 then [] else min limit P :: pageList P (limit - P) := by
  cases limit with
  | zero => simp [pageList, pageListGo]
  | succ n =>
      rw [if_neg (Nat.succ_ne_zero n)]
      unfold pageList
      rw [show pageListGo P (n + 1) (n + 1) =
        if n + 1 = 0 then []
        else if P ≤ n + 1 then P :: pageListGo P (n + 1 - P) n
        else [n + 1] from rfl]
      rw [if_neg (Nat.succ_ne_zero n)]
      by_cases hPl : P ≤ n + 1
      · rw [if_pos hPl]
        have hmin : min (n + 1) P = P := by omega
        rw [hmin]
        rw [pageListGo_congr P hP n (n + 1 - P) (n + 1 - P) (by omega) (le_refl _)]
      · rw [if_neg hPl]
        have hmin : min (n + 1) P = n + 1 := by omega
        have h0 : n + 1 - P = 0 := by omega
        rw [hmin, h0]
        simp [pageListGo]

theorem pageList_sum (P : Nat) (hP : 0 < P) :
    ∀ limit, (pageList P limit).sum = limit := by
  intro limit
  induction limit using Nat.strong_induction_on with
  | _ limit ih =>
      rw [pageList_unfold P hP limit]
      by_cases hl : limit = 0
      · simp [hl]
      · rw [if_neg hl, List.sum_cons]
        by_cases hPl : P ≤ limit
        · rw [ih (limit - P) (by omega)]
          omega
        · have h0 : limit - P = 0 := by omega
          have hnil : pageList P 0 = [] := by
            rw [pageList_unfold P hP 0]
            simp
          rw [h0, hnil, List.sum_nil]
          omega

theorem pageList_mem (P : Nat) (hP : 0 < P) :
    ∀ limit x, x ∈ pageList P limit → 0 < x ∧ x ≤ P := by
  intro limit
  induction limit using Nat.strong_induction_on with
  | _ limit ih =>
      intro x hx
      rw [pageList_unfold P hP limit] at hx
      by_cases hl : limit = 0
      · rw [if_pos hl] at hx
        simp at hx
      · rw [if_neg hl] at hx
        rcases List.mem_cons.mp hx with rfl | hx2
        · exact ⟨by omega, by omega⟩
        · exact ih (limit - P) (by omega) x hx2

theorem runEvents_clean (F : Int) (reg : List String) :
    ∀ (ms : List CleanMsg) (last : Int) (conn : Nat),
      invokeTimes (runEvents F reg last conn (cleanEvents ms)) =
        dispatchedTimes F last (ms.map CleanMsg.t) ∧
      ∀ a ∈ runEvents F reg last conn (cleanEvents ms), a.connOf = conn := by
  intro ms
  induction ms with
  | nil =>
      intro last conn
      exact ⟨rfl, by intro a ha; simp [cleanEvents, runEvents] at ha⟩
  | cons m rest ih =>
      intro last conn
      by_cases hd : F < m.t - last
      · constructor
        · simp only [cleanEvents, List.map_cons, runEvents, if_pos hd,
            Bool.false_eq_true, if_false, dispatchedTimes, invokeTimes,
            List.filterMap_cons]
          exact congrArg (List.cons m.t) (ih m.t conn).1
        · intro a ha
          simp only [cleanEvents, List.map_cons, runEvents, if_pos hd,
            Bool.false_eq_true, if_false, List.mem_cons] at ha
          rcases ha with rfl | ha
          · rfl
          · exact (ih m.t conn).2 a ha
      · constructor
        · simp only [cleanEvents, List.map_cons, runEvents, if_neg hd,
            dispatchedTimes]
          exact (ih last conn).1
        · intro a ha
          simp only [cleanEvents, List.map_cons, runEvents, if_neg hd] at ha
          exact (ih last conn).2 a ha

theorem dispatchedTimes_drop_all (F : Int) :
    ∀ (ts : List Int) (last : Int), (∀ t ∈ ts, t - last ≤ F) →
      dispatchedTimes F last ts = [] := by
  intro ts
  induction ts with
  | nil => intro last _; rfl
  | cons t ts ih =>
      intro last h
      have hnd : ¬ F < t - last := by
        have := h t (List.mem_cons_self t ts)
        omega
      simp only [dispatchedTimes, if_neg hnd]
      exact ih last fun u hu => h u (List.mem_cons_of_mem t hu)

theorem dispatchedTimes_all_zero :
    ∀ (ts : List Int) (last : Int), List.Chain (· < ·) last ts →
      dispatchedTimes 0 last ts = ts := by
  intro ts
  induction ts with
  | nil => intro last _; rfl
  | cons t ts ih =>
      intro last hc
      rcases hc with _ | ⟨h1, h2⟩
      have hd : (0 : Int) < t - last := by omega
      simp only [dispatchedTimes, if_pos hd]
      exact congrArg (List.cons t) (ih t h2)

theorem Order.hydrate_lookup (info : OrderInfo) (f : OrderDict) :
    (Order.hydrate info f).quantity = some (.vInt info.quantity) ∧
    (Order.hydrate info f).type = some (.vStr info.type) ∧
    ((Order.hydrate info f).limit_price =
      some (if strContains info.type "limit" then .vInt info.limit_price
            else .vNone)) ∧
    ((Order.hydrate info f).stop_price =
      if strContains info.type "limit" then f.stop_price
      else if strContains info.type "stop" then some .vNone
      else f.stop_price) ∧
    (Order.hydrate info f).side = some (.vStr info.side) ∧
    (Order.hydrate info f).status = some (.vStr info.status) ∧
    (Order.hydrate info f).instrument =
      some (.vInstr (Instrument.init info.instrument_isin none none none none).1) ∧
    (Order.hydrate info f).created_at = some (.vInt info.created_at) ∧
    (Order.hydrate info f).processed_at = some (.vInt info.processed_at) ∧
    (Order.hydrate info f).processed_quantity =
      some (.vInt info.processed_quantity) ∧
    (Order.hydrate info f).avg_price = some (.vInt info.average_price) ∧
    (Order.hydrate info f).valid_until = some (.vInt info.valid_until) := by
  unfold Order.hydrate
  split_ifs <;>
    exact ⟨rfl, rfl, rfl, rfl, rfl, rfl, rfl, rfl, rfl, rfl, rfl, rfl⟩

theorem Order.read_lazy (info : OrderInfo) (id : String) (account : AccountObj)
    (n : String) (v : PyVal) (hid : n ≠ "id") (hacc : n ≠ "account")
    (hemp : OrderDict.lookup OrderDict.empty n = none)
    (hn : n ∈ orderAttrNames)
    (hv : OrderDict.lookup (Order.hydrate info OrderDict.empty) n = some v) :
    Order.read info (Order.init id account).1 n =
      (.ok (⟨id, account, Order.hydrate info OrderDict.empty⟩, v), 1) := by
  show Order.read info ⟨id, account, OrderDict.empty⟩ n = _
  unfold Order.read
  rw [if_neg hid, if_neg hacc]
  simp only [hemp, if_pos hn, hv]

theorem Order.read_cached (info : OrderInfo) (o : OrderObj) (n : String)
    (v : PyVal) (hid : n ≠ "id") (hacc : n ≠ "account")
    (hv : OrderDict.lookup o.dict n = some v) :
    Order.read info o n = (.ok (o, v), 0) := by
  unfold Order.read
  rw [if_neg hid, if_neg hacc]
  simp only [hv]

theorem list_orders_err (a : AccountObj) (resp : OrdersResp)
    (h : resp.results ≠ []) :
    Account.list_orders a resp = .error .attributeError := by
  rcases resp with ⟨count, results⟩
  cases results with
  | nil => exact absurd rfl h
  | cons r rest =>
      unfold Account.list_orders
      exact fillLoop_head_err _ _ _ _ _ _ _ rfl

theorem list_orders_ok (a : AccountObj) (resp : OrdersResp) (l : List OrderObj)
    (h : Account.list_orders a resp = .ok l) : l = [] := by
  rcases resp with ⟨count, results⟩
  cases results with
  | nil =>
      unfold Account.list_orders at h
      simp only [fillLoop] at h
      rw [pyListMul_nil] at h
      injection h with h2
      exact h2.symm
  | cons r rest =>
      rw [list_orders_err a ⟨count, r :: rest⟩ (by simp)] at h
      cases h

theorem list_transactions_err (a : AccountObj) (rs : List TransRaw)
    (h : rs ≠ []) :
    Account.list_transactions a rs = .error .indexError := by
  unfold Account.list_transactions
  rw [pyListMul_nil]
  exact fillLoop_allok_ne_nil _ _ _ _ h

theorem list_transactions_ok (a : AccountObj) (rs : List TransRaw)
    (l : List TransactionObj) (h : Account.list_transactions a rs = .ok l) :
    l = [] := by
  unfold Account.list_transactions at h
  rw [pyListMul_nil] at h
  exact (fillLoop_allok_ok _ _ _ _ _ h).2

theorem get_trades_err (ord : Option String) (rs : List TradeRaw)
    (hord : ord = none ∨ ord = some "date" ∨ ord = some "-date")
    (h : rs ≠ []) :
    Account.get_trades_intraday ord rs = .error .indexError := by
  unfold Account.get_trades_intraday
  rw [if_pos hord, pyListMul_nil]
  exact fillLoop_allok_ne_nil _ _ _ _ h

theorem get_trades_ok (ord : Option String) (rs : List TradeRaw)
    (l : List TradeObj) (h : Account.get_trades_intraday ord rs = .ok l) :
    l = [] := by
  unfold Account.get_trades_intraday at h
  by_cases hord : ord = none ∨ ord = some "date" ∨ ord = some "-date"
  · rw [if_pos hord, pyListMul_nil] at h
    exact (fillLoop_allok_ok _ _ _ _ _ h).2
  · rw [if_neg hord] at h
    cases h

theorem list_instruments_err (pages : Nat → Page InstrRaw) (limit offset : Nat)
    (h : (collectPages pages 1000 offset 0 (pageList 1000 limit)).2 ≠ []) :
    (REST.list_instruments pages limit offset).2 = .error .indexError := by
  unfold REST.list_instruments
  dsimp only
  rw [pyListMul_nil, fillLoop_allok_ne_nil _ _ _ _ h]

theorem list_instruments_ok (pages : Nat → Page InstrRaw) (limit offset : Nat)
    (l : List InstrRaw)
    (h : (REST.list_instruments pages limit offset).2 = .ok l) : l = [] := by
  unfold REST.list_instruments at h
  dsimp only at h
  rw [pyListMul_nil] at h
  cases hf : fillLoop
      (fun r => .ok (Instrument.init r.isin (some r.wkn) (some r.title)
        (some r.type) (some r.symbol)).1)
      (fun i => (i : Int)) [] 0
      (collectPages pages 1000 offset 0 (pageList 1000 limit)).2 with
  | error e => rw [hf] at h; cases h
  | ok m =>
      rw [hf] at h
      have h2 := (fillLoop_allok_ok _ _ _ _ _ hf).1
      simp only at h
      injection h with h3
      rw [← h3, h2]

theorem get_m1_err (pages : Nat → Page CandleRaw) (ordering : Option String)
    (limit offset : Nat)
    (hord : ordering = none ∨ ordering = some "date" ∨ ordering = some "-date")
    (h : (collectPages pages 1000 offset 0 (pageList 1000 limit)).2 ≠ []) :
    (REST.get_m1_candlesticks pages ordering limit offset).2 =
      .error .indexError := by
  unfold REST.get_m1_candlesticks
  rw [if_pos hord]
  dsimp only
  rw [pyListMul_nil, fillLoop_allok_ne_nil _ _ _ _ h]

theorem get_m1_ok (pages : Nat → Page CandleRaw) (ordering : Option String)
    (limit offset : Nat) (l : List CandleObj)
    (h : (REST.get_m1_candlesticks pages ordering limit offset).2 = .ok l) :
    l = [] := by
  unfold REST.get_m1_candlesticks at h
  by_cases hord : ordering = none ∨ ordering = some "date" ∨
      ordering = some "-date"
  · rw [if_pos hord] at h
    dsimp only at h
    rw [pyListMul_nil] at h
    exact (fillLoop_allok_ok _ _ _ _ _ h).2
  · rw [if_neg hord] at h
    cases h

theorem get_aggregated_err (resp : List PosRaw) (h : resp ≠ []) :
    PortfolioObj.get_aggregated resp = .error .indexError := by
  unfold PortfolioObj.get_aggregated
  rw [pyListMul_nil]
  exact fillLoop_allok_ne_nil _ _ _ _ h

theorem get_aggregated_ok (resp : List PosRaw) (l : List PositionObj)
    (h : PortfolioObj.get_aggregated resp = .ok l) : l = [] := by
  unfold PortfolioObj.get_aggregated at h
  rw [pyListMul_nil] at h
  exact (fillLoop_allok_ok _ _ _ _ _ h).2

theorem get_seperated_err (p : PortfolioObj) (pages : Nat → Page PosRaw)
    (limit offset : Nat) (hl : 0 < limit) :
    PortfolioObj.get_seperated p pages limit offset =
      ([], .error .attributeError) := by
  unfold PortfolioObj.get_seperated
  rw [pageList_unfold 200 (by norm_num) limit, if_neg (by omega)]
  rfl

theorem get_seperated_ok (p : PortfolioObj) (pages : Nat → Page PosRaw)
    (limit offset : Nat) (l : List PositionObj)
    (h : (PortfolioObj.get_seperated p pages limit offset).2 = .ok l) :
    l = [] := by
  by_cases hl : 0 < limit
  · rw [get_seperated_err p pages limit offset hl] at h
    cases h
  · have hz : limit = 0 := by omega
    subst hz
    have : PortfolioObj.get_seperated p pages 0 offset = ([], .ok []) := rfl
    rw [this] at h
    cases h
    rfl

theorem collectPages_three {α : Type} (pages : Nat → Page α) (offset : Nat)
    (hnull : ∀ i, (pages i).next ≠ some "null") :
    collectPages pages 1000 offset 0 [1000, 1000, 500] =
      ([(1000, offset), (1000, 1000 + offset), (500, 2000 + offset)],
       (pages 0).results ++ ((pages 1).results ++ ((pages 2).results ++ []))) := by
  have h0 : ((pages 0).next == some "null") = false :=
    beq_eq_false_iff_ne.mpr (hnull 0)
  have h1 : ((pages 1).next == some "null") = false :=
    beq_eq_false_iff_ne.mpr (hnull 1)
  have h2 : ((pages 2).next == some "null") = false :=
    beq_eq_false_iff_ne.mpr (hnull 2)
  simp [collectPages, h0, h1, h2]

theorem collectPages_stop {α : Type} (pages : Nat → Page α)
    (stride offset i s : Nat) (rest : List Nat)
    (hnull : (pages i).next = some "null") :
    collectPages pages stride offset i (s :: rest) =
      ([(s, i * stride + offset)], (pages i).results) := by
  have hb : ((pages i).next == some "null") = true := beq_iff_eq.mpr hnull
  simp [collectPages, hb]

/-! ## Claim theorems -/

/-- C1, counterexample.  A concrete worker run in which the callback
raises on the first message: the run closes the connection and reopens a
new one (connection 1, resubscribing), and the next message is dispatched
on connection 1, not on the same connection 0 — refuting that the receive
loop is not terminated and that the next message is dispatched over the
same connection. -/
theorem claim1_counterexample :
    wsWorkerRun 0 ["US0378331005"]
        [.msg "US0378331005" 10 100 1 true, .msg "US0378331005" 11 101 2 false] =
      [.connect 0 ["US0378331005"],
       .invoke 0 "US0378331005" 10 100 1 true,
       .connect 1 ["US0378331005"],
       .invoke 1 "US0378331005" 11 101 2 false] ∧
    invokeConns (wsWorkerRun 0 ["US0378331005"]
        [.msg "US0378331005" 10 100 1 true, .msg "US0378331005" 11 101 2 false]) =
      [0, 1] ∧
    invokeConns (wsWorkerRun 0 ["US0378331005"]
        [.msg "US0378331005" 10 100 1 true, .msg "US0378331005" 11 101 2 false]) ≠
      [0, 0] := by
  decide

/-- C1, amended.  When the callback raises during a dispatch, the raise is
caught (wrapped in a ValueError and swallowed by the outer handler): the
worker does not crash, but the receive loop of the current connection
terminates, the worker reconnects — resending one subscribe directive per
registered instrument — and the remaining messages are processed from the
new connection onwards, with every subsequent action on a strictly later
connection, never the same one. -/
theorem claim1_amended (F : Int) (reg : List String) (last : Int) (conn : Nat)
    (isin : String) (p d t : Int) (es : List RecvEvent) (h : F < t - last) :
    runEvents F reg last conn (.msg isin p d t true :: es) =
      .invoke conn isin p d t true ::
        .connect (conn + 1) reg :: runEvents F reg last (conn + 1) es ∧
    ∀ a ∈ runEvents F reg last (conn + 1) es, conn < a.connOf := by
  constructor
  · simp [runEvents, if_pos h]
  · intro a ha
    exact Nat.lt_of_lt_of_le (Nat.lt_succ_self conn)
      (runEvents_conn_le F reg es last (conn + 1) a ha)

/-- C1 witness: the amended theorem applied at a concrete raising
message. -/
theorem claim1_witness :
    runEvents 0 ["X"] 0 0 [.msg "A" 1 1 1 true] =
      [.invoke 0 "A" 1 1 1 true, .connect 1 ["X"]] := by
  have h := (claim1_amended 0 ["X"] 0 0 "A" 1 1 1 [] (by decide)).1
  exact h

/-- C2, confirmed.  On a clean trace (no receive errors, callback never
raises): (1) the dispatched times of the worker run are exactly those of
the throttle recursion, which dispatches a message if and only if its
time exceeds the time of the last dispatched message by more than F
(dropping it and leaving the state unchanged otherwise); (2) all actions
stay on the same connection, so drops and dispatches never disturb the
stream; (3) a burst — a first message that passes the gate followed by
messages all within F of it — produces exactly one dispatch, the first
message; (4) with F = 0 and strictly increasing message times every
message is dispatched; (5) the dispatch decisions depend only on the
message times, not on the instruments — the throttle is global across
instruments. -/
theorem claim2_confirmed (F : Int) (reg : List String) (last : Int) (conn : Nat)
    (ms : List CleanMsg) :
    (invokeTimes (runEvents F reg last conn (cleanEvents ms)) =
      dispatchedTimes F last (ms.map CleanMsg.t)) ∧
    (∀ a ∈ runEvents F reg last conn (cleanEvents ms), a.connOf = conn) ∧
    (∀ (t0 : Int) (ts : List Int), F < t0 - last → (∀ t ∈ ts, t - t0 ≤ F) →
      dispatchedTimes F last (t0 :: ts) = [t0]) ∧
    (F = 0 → List.Chain (· < ·) last (ms.map CleanMsg.t) →
      dispatchedTimes F last (ms.map CleanMsg.t) = ms.map CleanMsg.t) ∧
    (∀ ms2 : List CleanMsg, ms2.map CleanMsg.t = ms.map CleanMsg.t →
      invokeTimes (runEvents F reg last conn (cleanEvents ms2)) =
        invokeTimes (runEvents F reg last conn (cleanEvents ms))) := by
  refine ⟨(runEvents_clean F reg ms last conn).1,
    (runEvents_clean F reg ms last conn).2, ?_, ?_, ?_⟩
  · intro t0 ts h0 hts
    simp only [dispatchedTimes, if_pos h0]
    exact congrArg (List.cons t0) (dispatchedTimes_drop_all F ts t0 hts)
  · intro hF hchain
    subst hF
    exact dispatchedTimes_all_zero (ms.map CleanMsg.t) last hchain
  · intro ms2 hmap
    rw [(runEvents_clean F reg ms2 last conn).1,
      (runEvents_clean F reg ms last conn).1, hmap]

/-- C2 witness: the confirmed theorem applied at a concrete trace with
F = 5 (messages at times 10, 12, 14, 20: exactly the first and the last
are dispatched) and at a concrete burst. -/
theorem claim2_witness :
    invokeTimes (runEvents 5 ["X"] 0 0 (cleanEvents
      [⟨"A", 1, 1, 10⟩, ⟨"B", 2, 2, 12⟩, ⟨"C", 3, 3, 14⟩, ⟨"D", 4, 4, 20⟩])) =
      [10, 20] ∧
    dispatchedTimes 5 0 [10, 12, 14] = [10] := by
  have h := claim2_confirmed 5 ["X"] 0 0
    [⟨"A", 1, 1, 10⟩, ⟨"B", 2, 2, 12⟩, ⟨"C", 3, 3, 14⟩, ⟨"D", 4, 4, 20⟩]
  constructor
  · rw [h.1]
    decide
  · have hb := h.2.2.1 10 [12, 14] (by decide) (by decide)
    simpa using hb

/-- C3, counterexample.  Two distinct Instrument objects with the same
ISIN: subscribing the second is not a no-op — the registry ends with two
entries carrying the same ISIN (though a second worker start indeed does
not happen). -/
theorem claim3_counterexample :
    (WSObj.subscribe (WSObj.subscribe ⟨[], 0⟩ instOb1) instOb2) =
      ⟨[instOb1, instOb2], 1⟩ ∧
    instOb1.isin = instOb2.isin ∧ instOb1 ≠ instOb2 := by
  decide

/-- C3, amended.  Deduplication in `subscribe` is by Python object
identity, not by ISIN: subscribing an instrument object already present
(the same object) is a no-op, while a distinct object is appended even
when its ISIN equals that of an existing entry — so the registry can hold
duplicate ISINs; a second worker start happens only when the registry was
empty before the call. -/
theorem claim3_amended (s : WSObj) (inst : PInstrument) :
    (pyMem inst s.subscribed = true → WSObj.subscribe s inst = s) ∧
    (pyMem inst s.subscribed = false →
      (WSObj.subscribe s inst).subscribed = s.subscribed ++ [inst] ∧
      (s.subscribed ≠ [] →
        (WSObj.subscribe s inst).workerStarts = s.workerStarts) ∧
      (s.subscribed = [] →
        (WSObj.subscribe s inst).workerStarts = s.workerStarts + 1)) := by
  constructor
  · intro h
    simp [WSObj.subscribe, h]
  · intro h
    refine ⟨by simp [WSObj.subscribe, h], ?_, ?_⟩
    · intro hne
      simp [WSObj.subscribe, h]
      exact hne
    · intro hnil
      simp [WSObj.subscribe, h, hnil, pyMem]

/-- C3 witness: the amended theorem applied at concrete registries. -/
theorem claim3_witness :
    WSObj.subscribe ⟨[instOb1], 1⟩ instOb1 = ⟨[instOb1], 1⟩ ∧
    (WSObj.subscribe ⟨[instOb1], 1⟩ instOb2).subscribed = [instOb1, instOb2] ∧
    (WSObj.subscribe ⟨[instOb1], 1⟩ instOb2).workerStarts = 1 := by
  have h1 := claim3_amended ⟨[instOb1], 1⟩ instOb1
  have h2 := claim3_amended ⟨[instOb1], 1⟩ instOb2
  refine ⟨h1.1 (by decide), ?_, ?_⟩
  · have := (h2.2 (by decide)).1
    simpa using this
  · have := (h2.2 (by decide)).2.1 (by simp [instOb1])
    simpa using this

/-- C9, code bug.  `unsubscribe` is modelled faithfully including its
final unconditional debug print: with the default debug = False, every
call raises UnboundLocalError after mutating the registry — including the
call with a not-subscribed instrument, which the claim (and the intent of
the guarded debug prints elsewhere in the class) says should silently
no-op.  And on a socket with no worker started, the termination path
raises AttributeError instead. -/
theorem claim9_code_bug :
    WSFull.unsubscribe false ⟨[instOb1], true⟩ instOb2 =
      (⟨[instOb1], true⟩, .error .unboundLocalError) ∧
    WSFull.unsubscribe false ⟨[instOb1], true⟩ instOb1 =
      (⟨[], true⟩, .error .unboundLocalError) ∧
    WSFull.unsubscribe false ⟨[], false⟩ instOb2 =
      (⟨[], false⟩, .error .attributeError) := by
  decide

/-- C4, counterexample.  Account is not lazily hydrated: constructing it
already issues one fetch (the claim says the first read of a descriptive
field triggers the fetch, and none occurs at construction).  And for a
lazily constructed Transaction the first read of a recognized field never
fetches at all: it raises AttributeError (the hydration URL reads
account.isin, which Account does not have). -/
theorem claim4_counterexample :
    (Account.init ⟨"Main", "demo", "EUR"⟩ "u1" "t1").2 = 1 ∧ (1 : Nat) ≠ 0 ∧
    Transaction.read (Transaction.init "t1" acctA none none none none none).1
        "name" = (.error .attributeError, 0) := by
  decide

/-- C4, amended.  Construction with only the identity key issues no fetch
for Instrument, Order and Transaction, while Account issues exactly one
fetch in its constructor (eager, not lazy; its descriptive reads are then
all served from the constructor-filled cache with no fetch).  Instrument
behaves as claimed: the first read of any descriptive field issues exactly
one fetch populating all four fields, and reads on the hydrated object
issue none.  Order: the first read of a recognized field other than
stop_price issues exactly one fetch whose assignments populate the group
except stop_price (absent unless the type is in the stop family without
"limit", and then it is the clobbered None); any field the fetch did
populate is afterwards served from cache with no fetch.  Transaction: the
first read of a recognized field issues no fetch and raises
AttributeError. -/
theorem claim4_amended :
    (∀ isin : String, (Instrument.init isin none none none none).2 = 0) ∧
    (∀ (oracle : InstrumentData) (isin n : String),
      n = "wkn" ∨ n = "title" ∨ n = "type" ∨ n = "symbol" →
      ∃ v, Instrument.read oracle (Instrument.init isin none none none none).1 n =
        (.ok (⟨isin, some oracle⟩, v), 1)) ∧
    (∀ (oracle : InstrumentData) (isin n : String),
      n = "wkn" ∨ n = "title" ∨ n = "type" ∨ n = "symbol" →
      ∃ v, Instrument.read oracle ⟨isin, some oracle⟩ n =
        (.ok (⟨isin, some oracle⟩, v), 0)) ∧
    (∀ (oracle : AccountData) (uuid token : String),
      (Account.init oracle uuid token).2 = 1) ∧
    (∀ (oracle : AccountData) (uuid token n : String),
      n = "name" ∨ n = "type" ∨ n = "currency" →
      ∃ v, Account.read (Account.init oracle uuid token).1 n = (.ok v, 0)) ∧
    (∀ (id : String) (account : AccountObj), (Order.init id account).2 = 0) ∧
    (∀ (info : OrderInfo) (id : String) (account : AccountObj) (n : String),
      n ∈ orderAttrNames → n ≠ "stop_price" →
      ∃ v, Order.read info (Order.init id account).1 n =
        (.ok (⟨id, account, Order.hydrate info OrderDict.empty⟩, v), 1)) ∧
    (∀ (info : OrderInfo) (o : OrderObj) (n : String) (v : PyVal),
      n ≠ "id" → n ≠ "account" → OrderDict.lookup o.dict n = some v →
      Order.read info o n = (.ok (o, v), 0)) ∧
    (∀ (id : String) (account : AccountObj),
      (Transaction.init id account none none none none none).2 = 0) ∧
    (∀ (id : String) (account : AccountObj) (n : String), n ∈ transAttrNames →
      Transaction.read (Transaction.init id account none none none none none).1
        n = (.error .attributeError, 0)) := by
  refine ⟨fun _ => rfl, ?_, ?_, fun _ _ _ => rfl, ?_, fun _ _ => rfl, ?_, ?_,
    fun _ _ => rfl, ?_⟩
  · intro oracle isin n hn
    rcases hn with rfl | rfl | rfl | rfl <;> exact ⟨_, rfl⟩
  · intro oracle isin n hn
    rcases hn with rfl | rfl | rfl | rfl <;> exact ⟨_, rfl⟩
  · intro oracle uuid token n hn
    rcases hn with rfl | rfl | rfl <;> exact ⟨_, rfl⟩
  · intro info id account n hn hns
    have hl := Order.hydrate_lookup info OrderDict.empty
    rcases (by simpa [orderAttrNames] using hn :
        n = "quantity" ∨ n = "limit_price" ∨ n = "stop_price" ∨ n = "type" ∨
        n = "side" ∨ n = "instrument" ∨ n = "created_at" ∨ n = "processed_at" ∨
        n = "processed_quantity" ∨ n = "avg_price" ∨ n = "valid_until") with
      rfl | rfl | rfl | rfl | rfl | rfl | rfl | rfl | rfl | rfl | rfl
    · exact ⟨_, Order.read_lazy info id account _ _ (by decide) (by decide)
        (by decide) (by decide) hl.1⟩
    · exact ⟨_, Order.read_lazy info id account _ _ (by decide) (by decide)
        (by decide) (by decide) hl.2.2.1⟩
    · exact absurd rfl hns
    · exact ⟨_, Order.read_lazy info id account _ _ (by decide) (by decide)
        (by decide) (by decide) hl.2.1⟩
    · exact ⟨_, Order.read_lazy info id account _ _ (by decide) (by decide)
        (by decide) (by decide) hl.2.2.2.2.1⟩
    · exact ⟨_, Order.read_lazy info id account _ _ (by decide) (by decide)
        (by decide) (by decide) hl.2.2.2.2.2.2.1⟩
    · exact ⟨_, Order.read_lazy info id account _ _ (by decide) (by decide)
        (by decide) (by decide) hl.2.2.2.2.2.2.2.1⟩
    · exact ⟨_, Order.read_lazy info id account _ _ (by decide) (by decide)
        (by decide) (by decide) hl.2.2.2.2.2.2.2.2.1⟩
    · exact ⟨_, Order.read_lazy info id account _ _ (by decide) (by decide)
        (by decide) (by decide) hl.2.2.2.2.2.2.2.2.2.1⟩
    · exact ⟨_, Order.read_lazy info id account _ _ (by decide) (by decide)
        (by decide) (by decide) hl.2.2.2.2.2.2.2.2.2.2.1⟩
    · exact ⟨_, Order.read_lazy info id account _ _ (by decide) (by decide)
        (by decide) (by decide) hl.2.2.2.2.2.2.2.2.2.2.2⟩
  · intro info o n v hid hacc hv
    exact Order.read_cached info o n v hid hacc hv
  · intro id account n hn
    rcases (by simpa [transAttrNames] using hn :
        n = "name" ∨ n = "amount" ∨ n = "order_volume" ∨ n = "order_isin" ∨
        n = "time") with rfl | rfl | rfl | rfl | rfl <;> rfl

/-- C4 witness: the amended theorem applied at concrete inputs — an
Instrument first read (one fetch), an Account constructor (one fetch), and
an Order first read of quantity (one fetch, hydrated dict cached). -/
theorem claim4_witness :
    (∃ v, Instrument.read ⟨"w1", "Apple", "stocks", "AAPL"⟩
        (Instrument.init "US0378331005" none none none none).1 "title" =
      (.ok (⟨"US0378331005", some ⟨"w1", "Apple", "stocks", "AAPL"⟩⟩, v), 1)) ∧
    (Account.init ⟨"Main", "demo", "EUR"⟩ "u1" "t1").2 = 1 ∧
    (∃ v, Order.read infoM (Order.init "o1" acctA).1 "quantity" =
      (.ok (⟨"o1", acctA, Order.hydrate infoM OrderDict.empty⟩, v), 1)) := by
  refine ⟨claim4_amended.2.1 ⟨"w1", "Apple", "stocks", "AAPL"⟩ "US0378331005"
      "title" (by decide),
    claim4_amended.2.2.2.1 ⟨"Main", "demo", "EUR"⟩ "u1" "t1",
    claim4_amended.2.2.2.2.2.2.1 infoM "o1" acctA "quantity" (by decide)
      (by decide)⟩

/-- C8, code bug.  Order hydration is not all-or-nothing: on a lazily
constructed Order whose backend type is market, the first read of quantity
issues one fetch that populates the group except stop_price, leaving a
partially hydrated cache; the subsequent read of stop_price finds no cache
entry, issues a second fetch, and then raises KeyError — although the
class docstring documents stop_price as None for market orders. -/
theorem claim8_code_bug :
    Order.read infoM (Order.init "o1" acctA).1 "quantity" =
      (.ok (⟨"o1", acctA, Order.hydrate infoM OrderDict.empty⟩, .vInt 5), 1) ∧
    (Order.hydrate infoM OrderDict.empty).quantity = some (.vInt 5) ∧
    (Order.hydrate infoM OrderDict.empty).type = some (.vStr "market") ∧
    (Order.hydrate infoM OrderDict.empty).stop_price = none ∧
    Order.read infoM ⟨"o1", acctA, Order.hydrate infoM OrderDict.empty⟩
        "stop_price" = (.error .keyError, 1) := by
  decide

/-- C10, confirmed.  Whenever the argument validation of create_order
passes (recognized order type, limit and stop prices present when the type
requires them), the POST is issued (exactly one request) and the return
statement then reads the attribute account on the Account object, which
is outside the recognized set, so the call raises AttributeError and never
returns an Order. -/
theorem claim10_confirmed (a : AccountObj) (ruuid : String) (sd : String)
    (inst : InstrumentObj) (q : Int) (ot : String) (lim stp : Option Int)
    (h1 : ot ∈ orderTypes)
    (h2 : strContains ot "limit" = true → lim ≠ none)
    (h3 : strContains ot "stop" = true → stp ≠ none) :
    Account.create_order a ruuid (some sd) (some inst) (some q) (some ot)
      lim stp = (.error .attributeError, 1) := by
  unfold Account.create_order
  dsimp only
  rw [if_pos h1, if_neg (fun hc => h2 hc.2 hc.1), if_neg (fun hc => h3 hc.2 hc.1)]
  rfl

/-- C10 witness: the confirmed theorem applied at a concrete market
order. -/
theorem claim10_witness :
    Account.create_order acctA "o9" (some "buy") (some instA) (some 1)
      (some "market") none none = (.error .attributeError, 1) :=
  claim10_confirmed acctA "o9" "buy" instA 1 "market" none none (by decide)
    (fun h => absurd h (by decide)) (fun h => absurd h (by decide))

/-- C5, counterexample.  Two of the seven operations do not raise
IndexError as the claim states: list_orders raises AttributeError on a
nonempty response (building each Order evaluates self.account before the
indexed assignment), and get_seperated raises AttributeError before the
response is even requested (Portfolio has no _auth_header). -/
theorem claim5_counterexample :
    Account.list_orders acctA ⟨1, [ordRaw1]⟩ = .error .attributeError ∧
    (Except.error .attributeError : Except PyErr (List OrderObj)) ≠
      .error .indexError ∧
    PortfolioObj.get_seperated portA posPages0 400 0 =
      ([], .error .attributeError) := by
  decide

/-- C5, amended.  Every listed operation pre-creates its result container
as the Python expression `[] * n`, which is the empty list for every n,
and assigns into it by index.  Consequently list_transactions,
get_trades_intraday, list_instruments, get_m1_candlesticks and
get_aggregated raise IndexError whenever the (assembled) response has at
least one result; list_orders instead raises AttributeError on any
nonempty response, before its first indexed assignment; get_seperated
raises AttributeError before issuing any request whenever its page loop
runs at all (limit positive).  In every case, the only list such an
operation ever returns is the empty list. -/
theorem claim5_amended :
    (∀ (α : Type) (n : Nat), pyListMul ([] : List α) n = []) ∧
    (∀ (a : AccountObj) (resp : OrdersResp), resp.results ≠ [] →
      Account.list_orders a resp = .error .attributeError) ∧
    (∀ (a : AccountObj) (resp : OrdersResp) (l : List OrderObj),
      Account.list_orders a resp = .ok l → l = []) ∧
    (∀ (a : AccountObj) (rs : List TransRaw), rs ≠ [] →
      Account.list_transactions a rs = .error .indexError) ∧
    (∀ (a : AccountObj) (rs : List TransRaw) (l : List TransactionObj),
      Account.list_transactions a rs = .ok l → l = []) ∧
    (∀ (ord : Option String) (rs : List TradeRaw),
      (ord = none ∨ ord = some "date" ∨ ord = some "-date") → rs ≠ [] →
      Account.get_trades_intraday ord rs = .error .indexError) ∧
    (∀ (ord : Option String) (rs : List TradeRaw) (l : List TradeObj),
      Account.get_trades_intraday ord rs = .ok l → l = []) ∧
    (∀ (pages : Nat → Page InstrRaw) (limit offset : Nat),
      (collectPages pages 1000 offset 0 (pageList 1000 limit)).2 ≠ [] →
      (REST.list_instruments pages limit offset).2 = .error .indexError) ∧
    (∀ (pages : Nat → Page InstrRaw) (limit offset : Nat) (l : List InstrRaw),
      (REST.list_instruments pages limit offset).2 = .ok l → l = []) ∧
    (∀ (pages : Nat → Page CandleRaw) (ordering : Option String)
        (limit offset : Nat),
      (ordering = none ∨ ordering = some "date" ∨ ordering = some "-date") →
      (collectPages pages 1000 offset 0 (pageList 1000 limit)).2 ≠ [] →
      (REST.get_m1_candlesticks pages ordering limit offset).2 =
        .error .indexError) ∧
    (∀ (pages : Nat → Page CandleRaw) (ordering : Option String)
        (limit offset : Nat) (l : List CandleObj),
      (REST.get_m1_candlesticks pages ordering limit offset).2 = .ok l →
      l = []) ∧
    (∀ resp : List PosRaw, resp ≠ [] →
      PortfolioObj.get_aggregated resp = .error .indexError) ∧
    (∀ (resp : List PosRaw) (l : List PositionObj),
      PortfolioObj.get_aggregated resp = .ok l → l = []) ∧
    (∀ (p : PortfolioObj) (pages : Nat → Page PosRaw) (limit offset : Nat),
      0 < limit → PortfolioObj.get_seperated p pages limit offset =
        ([], .error .attributeError)) ∧
    (∀ (p : PortfolioObj) (pages : Nat → Page PosRaw) (limit offset : Nat)
        (l : List PositionObj),
      (PortfolioObj.get_seperated p pages limit offset).2 = .ok l → l = []) :=
  ⟨fun _ n => pyListMul_nil n, list_orders_err, list_orders_ok,
    list_transactions_err, list_transactions_ok, get_trades_err, get_trades_ok,
    list_instruments_err, list_instruments_ok, get_m1_err, get_m1_ok,
    get_aggregated_err, get_aggregated_ok, get_seperated_err, get_seperated_ok⟩

/-- C5 witness: the amended theorem applied at concrete inputs — a
one-transaction response raises IndexError, and a one-order response
raises AttributeError. -/
theorem claim5_witness :
    Account.list_transactions acctA [transRaw1] = .error .indexError ∧
    Account.list_orders acctA ⟨1, [ordRaw1]⟩ = .error .attributeError := by
  exact ⟨claim5_amended.2.2.2.1 acctA [transRaw1] (by decide),
    claim5_amended.2.1 acctA ⟨1, [ordRaw1]⟩ (by decide)⟩

/-- C6, code bug.  The claim (and the docstring of get_m1_candlesticks)
says a descending-order query returns the candles with monotonically
decreasing timestamps; the code instead raises IndexError for every
response with at least one candle, because the reverse placement
`returnlist[-i] = ...` assigns into the container `[] * n`, which is
empty.  The theorem evaluates the failing input: one page with one
candle and ordering "-date" — one request is issued, then IndexError. -/
theorem claim6_code_bug :
    REST.get_m1_candlesticks candlePages1 (some "-date") 1000 0 =
      ([(1000, 0)], .error .indexError) := by
  decide

/-- C7, counterexample.  get_seperated with limit 400 should, per the
claim, issue two requests with page sizes [200, 200] at offsets [0, 200];
it issues none at all: the first loop iteration raises AttributeError
(Portfolio has no _auth_header) before any request — and its offset
expression uses stride 1000, not the page size 200, in any case. -/
theorem claim7_counterexample :
    PortfolioObj.get_seperated portA posPages0 400 0 =
      ([], .error .attributeError) ∧
    ([] : List (Nat × Nat)) ≠ [(200, 0), (200, 200)] ∧
    pageList 200 400 = [200, 200] := by
  decide

/-- C7, amended.  For the 1000-per-page operations (list_instruments,
get_m1_candlesticks) the claim holds: limit is partitioned into
min(remaining, P) chunks summing to limit, one request per page is issued
at offset + i * 1000, results are concatenated in arrival order, and the
loop stops after the first page whose next field equals the string
"null"; in particular limit 2500 issues exactly the three requests
(1000, offset), (1000, 1000 + offset), (500, 2000 + offset).
get_seperated partitions with P = 200 but raises AttributeError before
issuing any request whenever limit is positive (Portfolio has no
_auth_header attribute). -/
theorem claim7_amended :
    (pageList 1000 2500 = [1000, 1000, 500]) ∧
    (∀ P limit : Nat, 0 < P → (pageList P limit).sum = limit) ∧
    (∀ P limit : Nat, 0 < P → 0 < limit →
      pageList P limit = min limit P :: pageList P (limit - P)) ∧
    (∀ P limit x : Nat, 0 < P → x ∈ pageList P limit → 0 < x ∧ x ≤ P) ∧
    (∀ (pages : Nat → Page InstrRaw) (offset : Nat),
      (∀ i, (pages i).next ≠ some "null") →
      (REST.list_instruments pages 2500 offset).1 =
        [(1000, offset), (1000, 1000 + offset), (500, 2000 + offset)] ∧
      (collectPages pages 1000 offset 0 (pageList 1000 2500)).2 =
        (pages 0).results ++ ((pages 1).results ++ ((pages 2).results ++ []))) ∧
    (∀ (pages : Nat → Page CandleRaw) (ordering : Option String) (offset : Nat),
      (ordering = none ∨ ordering = some "date" ∨ ordering = some "-date") →
      (∀ i, (pages i).next ≠ some "null") →
      (REST.get_m1_candlesticks pages ordering 2500 offset).1 =
        [(1000, offset), (1000, 1000 + offset), (500, 2000 + offset)]) ∧
    (∀ (α : Type) (pages : Nat → Page α) (stride offset i s : Nat)
        (rest : List Nat), (pages i).next = some "null" →
      collectPages pages stride offset i (s :: rest) =
        ([(s, i * stride + offset)], (pages i).results)) ∧
    (∀ (p : PortfolioObj) (pages : Nat → Page PosRaw) (limit offset : Nat),
      0 < limit → PortfolioObj.get_seperated p pages limit offset =
        ([], .error .attributeError)) := by
  have hpl : pageList 1000 2500 = [1000, 1000, 500] := by decide
  refine ⟨hpl, fun P limit hP => pageList_sum P hP limit, ?_, ?_, ?_, ?_,
    fun α pages stride offset i s rest h =>
      collectPages_stop pages stride offset i s rest h,
    get_seperated_err⟩
  · intro P limit hP hl
    rw [pageList_unfold P hP limit, if_neg (by omega)]
  · intro P limit x hP hx
    exact pageList_mem P hP limit x hx
  · intro pages offset hnull
    have hc := collectPages_three pages offset hnull
    constructor
    · unfold REST.list_instruments
      dsimp only
      rw [hpl, hc]
      cases hf : fillLoop
          (fun r => .ok (Instrument.init r.isin (some r.wkn) (some r.title)
            (some r.type) (some r.symbol)).1)
          (fun i => (i : Int))
          (pyListMul []
            ((pages 0).results ++ ((pages 1).results ++ ((pages 2).results ++ []))).length)
          0 ((pages 0).results ++ ((pages 1).results ++ ((pages 2).results ++ []))) with
      | error e => rfl
      | ok m => rfl
    · rw [hpl, hc]
  · intro pages ordering offset hord hnull
    have hc := collectPages_three pages offset hnull
    unfold REST.get_m1_candlesticks
    rw [if_pos hord]
    dsimp only
    rw [hpl, hc]

/-- C7 witness: the amended theorem applied at a concrete page oracle with
no end marker (three requests at sizes [1000, 1000, 500] and offsets
[0, 1000, 2000]) and a concrete positive-limit get_seperated call. -/
theorem claim7_witness :
    (REST.list_instruments instrPages1 2500 0).1 =
      [(1000, 0), (1000, 1000), (500, 2000)] ∧
    PortfolioObj.get_seperated portA posPages0 5 3 =
      ([], .error .attributeError) := by
  have h5 := (claim7_amended.2.2.2.2.1 instrPages1 0
    (fun i h => Option.noConfusion h)).1
  exact ⟨by simpa using h5,
    claim7_amended.2.2.2.2.2.2.2 portA posPages0 5 3 (by decide)⟩

end LemonMarkets
